import Mathlib

/-!
# dji_osdk_ros: the vehicle node header

A shallow embedding of `include/dji_osdk_ros/dji_vehicle_node.h`.

* The preprocessor macros `C_EARTH`, `C_PI`, `DEG2RAD` and `RAD2DEG` are
  embedded with their `double` operands read as exact numbers: every
  definition is generic in a linearly ordered field, so it runs on `ℚ`
  and the theorems hold on `ℚ` and on `ℝ` alike.
* The header only declares `VehicleNode`; the bodies of its member
  functions and of its constructors live in translation units that are not
  part of the sources at hand.  Definitions standing for such bodies are
  marked `Modelled from the spec:`.
* The two `const` members of `VehicleNode` are parameters of the node type
  and the other members are its fields, so that an operation on a node can
  assign exactly what the header lets a member function assign.
-/

namespace dji_osdk_ros

/-! ## Macros (header lines 96-99) -/

/-- The macro `C_EARTH`, `(double)6378137.0`: the earth radius in metres. -/
def C_EARTH {α : Type} [LinearOrderedField α] : α := 6378137.0

/-- The macro `C_PI`, `(double)3.141592653589793`, the literal read as an
exact decimal. -/
def C_PI {α : Type} [LinearOrderedField α] : α := 3.141592653589793

/-- The macro `DEG2RAD(DEG)`, `((DEG) * ((C_PI) / (180.0)))`. -/
def DEG2RAD {α : Type} [LinearOrderedField α] (DEG : α) : α :=
  DEG * (C_PI / 180.0)

/-- The macro `RAD2DEG(RAD)`, `((RAD) * (180.0) / (C_PI))`: the product is
taken first, the quotient by `C_PI` last. -/
def RAD2DEG {α : Type} [LinearOrderedField α] (RAD : α) : α :=
  RAD * 180.0 / C_PI

/-! ## GPS to ENU (declaration at header lines 308-310) -/

/-- Modelled from the spec: the body of `VehicleNode::gpsConvertENU` is
missing (the header has only its declaration, with the two outputs
`ENU_x`, `ENU_y` passed by reference).  The spec calls it a unit
conversion from GPS to ENU; the model is the flat-earth conversion built
from the macros `DEG2RAD` and `C_EARTH` of the header: the north offset is
the arc of the latitude difference, the east offset the arc of the
longitude difference shrunk by the cosine of the target latitude.  The
cosine is a parameter, so nothing proved here depends on how it is
computed.  The result is the pair `(ENU_x, ENU_y)` written to the two references. -/
def gpsConvertENU {α : Type} [LinearOrderedField α] (cos : α → α)
    (gps_t_lon gps_t_lat gps_r_lon gps_r_lat : α) : α × α :=
  let d_lon := gps_t_lon - gps_r_lon
  let d_lat := gps_t_lat - gps_r_lat
  let ENU_y := DEG2RAD d_lat * C_EARTH
  let ENU_x := DEG2RAD d_lon * C_EARTH * cos (DEG2RAD gps_t_lat)
  (ENU_x, ENU_y)

/-! ## Node state (header lines 244-252) -/

/-- Modelled from the spec: the type `AlignStatus` of the member
`curr_align_state_` is declared in `common_type.h`, which is missing.  The
spec speaks of an alignment flag that is valid once set; the model has the
flag not yet set (`UNALIGNED`), being set (`ALIGNING`) and set
(`ALIGNED`). -/
inductive AlignStatus where
  | UNALIGNED
  | ALIGNING
  | ALIGNED
  deriving DecidableEq, Repr

/-- A `tf::Matrix3x3`, its scalar entries read as exact numbers. -/
abbrev Matrix3x3 := Matrix (Fin 3) (Fin 3) ℚ

/-- The part of `VehicleNode` the clock alignment and the frame
conversions touch.  The two members declared `const tf::Matrix3x3`
(header lines 250-251) are the parameters of the type: they are given when
the node is constructed and belong to the node from then on, and a member
function, which takes the node to a node of the same type, has nothing to
assign them with.  The members it can assign are the fields:
`curr_align_state_`, `base_time_` (a `ros::Time`, here in nanoseconds) and
the two counters the alignment routine keeps between calls. -/
structure VehicleNode (R_FLU2FRD_ R_ENU2NED_ : Matrix3x3) where
  curr_align_state_ : AlignStatus
  base_time_ : ℤ
  aligned_count : ℕ
  retry_count : ℕ

/-- Reading the `const` member `R_FLU2FRD_` of a node. -/
def VehicleNode.R_FLU2FRD_ {R_FLU2FRD_ R_ENU2NED_ : Matrix3x3}
    (_p : VehicleNode R_FLU2FRD_ R_ENU2NED_) : Matrix3x3 :=
  R_FLU2FRD_

/-- Reading the `const` member `R_ENU2NED_` of a node. -/
def VehicleNode.R_ENU2NED_ {R_FLU2FRD_ R_ENU2NED_ : Matrix3x3}
    (_p : VehicleNode R_FLU2FRD_ R_ENU2NED_) : Matrix3x3 :=
  R_ENU2NED_

/-- An operation on a constructed node: a call of any member function other
than a constructor, with its arguments and all it reads from outside the
node fixed.  It may read every member and assign every member that is not
`const`, so it is a map from the type of the node to itself; no such map
can be written that gives the node other matrices. -/
abbrev Operation (R_FLU2FRD_ R_ENU2NED_ : Matrix3x3) : Type :=
  VehicleNode R_FLU2FRD_ R_ENU2NED_ → VehicleNode R_FLU2FRD_ R_ENU2NED_

/-- The node after a sequence of operations, the first of the list first. -/
def VehicleNode.run {R_FLU2FRD_ R_ENU2NED_ : Matrix3x3}
    (p : VehicleNode R_FLU2FRD_ R_ENU2NED_)
    (ops : List (Operation R_FLU2FRD_ R_ENU2NED_)) :
    VehicleNode R_FLU2FRD_ R_ENU2NED_ :=
  ops.foldl (fun q op => op q) p

/-- Modelled from the spec: the entries of the member `R_FLU2FRD_` are given
by a constructor, whose body is missing.  The spec lists static rotation
matrices for frame conversion among the state of the node; following the
frame names of its glossary, forward-left-up to forward-right-down keeps
the first axis and flips the other two. -/
def FLU2FRD : Matrix3x3 := !![1, 0, 0; 0, -1, 0; 0, 0, -1]

/-- Modelled from the spec: the entries of the member `R_ENU2NED_` are given
by a constructor, whose body is missing.  Following the frame names of the
glossary of the spec, east-north-up to north-east-down swaps the first two
axes and flips the third. -/
def ENU2NED : Matrix3x3 := !![0, 1, 0; 1, 0, 0; 0, 0, -1]

/-- Modelled from the spec: the constructors of `VehicleNode` are missing
(the header declares `VehicleNode()` and `VehicleNode(int test)` and has
the body of neither, so which of them initialises what cannot be read from
it).  The model is the node as the spec describes it once constructed: it
holds the two frame-conversion matrices, its alignment flag is not yet
set and its base time is zero. -/
def VehicleNode.construct : VehicleNode FLU2FRD ENU2NED where
  curr_align_state_ := AlignStatus.UNALIGNED
  base_time_ := 0
  aligned_count := 0
  retry_count := 0

/-- A rotation matrix: orthogonal, with determinant one. -/
def IsRotation (R : Matrix3x3) : Prop :=
  R * R.transpose = 1 ∧ R.det = 1

instance (R : Matrix3x3) : Decidable (IsRotation R) :=
  inferInstanceAs (Decidable (_ ∧ _))

/-! ## Clock alignment (declaration at header line 311) -/

/-- Modelled from the spec: the conversion of a flight-controller tick
(a `uint32_t` count of milliseconds) to a time span is missing; here it is
the span in nanoseconds. -/
def TICK2ROSTIME (tick : ℕ) : ℤ := (tick : ℤ) * 1000000

/-- Modelled from the spec: the body of
`VehicleNode::alignRosTimeWithFlightController` is missing (the header has
only its declaration).  The spec describes a time-alignment routine
between the tick counter of the flight controller and the host clock,
working on an alignment flag / base-time pair that is valid once set.  In
the model an unaligned node takes the host time minus the tick time as its
base time and starts aligning; an aligning node counts the calls whose
host time agrees with base time plus tick time within `TIME_DIFF_CHECK`,
takes a new base time when one disagrees after some agreed, and becomes
aligned once more than `STABLE_ALIGNMENT_COUNT` calls agreed; an aligned
node is left as it is.  The two thresholds are parameters. -/
def alignRosTimeWithFlightController {R_FLU2FRD_ R_ENU2NED_ : Matrix3x3}
    (TIME_DIFF_CHECK : ℤ) (STABLE_ALIGNMENT_COUNT : ℕ)
    (p : VehicleNode R_FLU2FRD_ R_ENU2NED_) (now_time : ℤ) (tick : ℕ) :
    VehicleNode R_FLU2FRD_ R_ENU2NED_ :=
  match p.curr_align_state_ with
  | AlignStatus.UNALIGNED =>
      { p with base_time_ := now_time - TICK2ROSTIME tick
               curr_align_state_ := AlignStatus.ALIGNING }
  | AlignStatus.ALIGNING =>
      let dt := |now_time - (p.base_time_ + TICK2ROSTIME tick)|
      let p1 : VehicleNode R_FLU2FRD_ R_ENU2NED_ :=
        if dt < TIME_DIFF_CHECK then
          { p with aligned_count := p.aligned_count + 1 }
        else if 0 < p.aligned_count then
          { p with base_time_ := now_time - TICK2ROSTIME tick
                   aligned_count := 0
                   retry_count := p.retry_count + 1 }
        else p
      if STABLE_ALIGNMENT_COUNT < p1.aligned_count then
        { p1 with curr_align_state_ := AlignStatus.ALIGNED }
      else p1
  | AlignStatus.ALIGNED => p

/-- The node after a sequence of calls of the alignment routine, each with
its host time and its tick. -/
def runAlign {R_FLU2FRD_ R_ENU2NED_ : Matrix3x3}
    (TIME_DIFF_CHECK : ℤ) (STABLE_ALIGNMENT_COUNT : ℕ)
    (p : VehicleNode R_FLU2FRD_ R_ENU2NED_) (calls : List (ℤ × ℕ)) :
    VehicleNode R_FLU2FRD_ R_ENU2NED_ :=
  calls.foldl
    (fun q c => alignRosTimeWithFlightController TIME_DIFF_CHECK STABLE_ALIGNMENT_COUNT q c.1 c.2)
    p

/-- An example run: from construction, four calls one millisecond apart
whose host time stays 4 s ahead of the tick time, under a window of 8 ms
and with more than 2 agreeing calls asked for. -/
def alignedExample : VehicleNode FLU2FRD ENU2NED :=
  runAlign 8000000 2 VehicleNode.construct
    [(5000000000, 1000), (5001000000, 1001), (5002000000, 1002), (5003000000, 1003)]

/-! ## Helper lemmas -/

theorem C_PI_pos {α : Type} [LinearOrderedField α] : (0 : α) < C_PI := by
  unfold C_PI
  norm_num

theorem C_PI_ne_zero {α : Type} [LinearOrderedField α] : (C_PI : α) ≠ 0 :=
  ne_of_gt C_PI_pos

theorem DEG2RAD_straight_angle {α : Type} [LinearOrderedField α] :
    DEG2RAD (180 : α) = C_PI := by
  unfold DEG2RAD
  norm_num
  ring

theorem FLU2FRD_isRotation : IsRotation FLU2FRD := by
  have ht : FLU2FRD.transpose = !![1, 0, 0; 0, -1, 0; 0, 0, -1] := by
    ext i j
    fin_cases i <;> fin_cases j <;> rfl
  refine ⟨?_, ?_⟩
  · rw [ht]
    simp [FLU2FRD, Matrix.mul_fin_three, Matrix.one_fin_three]
  · simp [FLU2FRD, Matrix.det_fin_three]

theorem ENU2NED_isRotation : IsRotation ENU2NED := by
  have ht : ENU2NED.transpose = !![0, 1, 0; 1, 0, 0; 0, 0, -1] := by
    ext i j
    fin_cases i <;> fin_cases j <;> rfl
  refine ⟨?_, ?_⟩
  · rw [ht]
    simp [ENU2NED, Matrix.mul_fin_three, Matrix.one_fin_three]
  · simp [ENU2NED, Matrix.det_fin_three]

/-! ## The claims -/

/-- Claim C1. `DEG2RAD` converts degrees to radians: for every number `d`,
`DEG2RAD(d) = d * C_PI / 180` in exact arithmetic; in particular
`DEG2RAD(0) = 0`, `DEG2RAD(90) = C_PI / 2` and `DEG2RAD(180) = C_PI`. -/
theorem DEG2RAD_converts_degrees {α : Type} [LinearOrderedField α] :
    (∀ d : α, DEG2RAD d = d * C_PI / 180) ∧ DEG2RAD (0 : α) = 0 ∧
      DEG2RAD (90 : α) = C_PI / 2 ∧ DEG2RAD (180 : α) = C_PI := by
  refine ⟨fun d => ?_, ?_, ?_, DEG2RAD_straight_angle⟩ <;> unfold DEG2RAD <;> norm_num <;> ring

/-- Claim C2. `RAD2DEG` converts radians to degrees: for every number `r`,
`RAD2DEG(r) = r * 180 / C_PI` in exact arithmetic; in particular
`RAD2DEG(0) = 0`, `RAD2DEG(C_PI) = 180` and `RAD2DEG(2 * C_PI) = 360`. -/
theorem RAD2DEG_converts_radians {α : Type} [LinearOrderedField α] :
    (∀ r : α, RAD2DEG r = r * 180 / C_PI) ∧ RAD2DEG (0 : α) = 0 ∧
      RAD2DEG (C_PI : α) = 180 ∧ RAD2DEG (2 * C_PI : α) = 360 := by
  have h : (C_PI : α) ≠ 0 := C_PI_ne_zero
  refine ⟨fun r => ?_, ?_, ?_, ?_⟩
  · unfold RAD2DEG
    norm_num
  · unfold RAD2DEG
    norm_num
  · unfold RAD2DEG
    field_simp
    norm_num
  · unfold RAD2DEG
    field_simp
    norm_num
    ring

/-- Claim C3. `gpsConvertENU` turns a target longitude/latitude into its east
(`ENU_x`) and north (`ENU_y`) offset from a reference longitude/latitude:
when the target longitude and latitude equal the reference longitude and
latitude, it sets `ENU_x = 0` and `ENU_y = 0`, whatever the reference point
and however the cosine is computed. -/
theorem gpsConvertENU_at_reference {α : Type} [LinearOrderedField α] (cos : α → α)
    (gps_t_lon gps_t_lat gps_r_lon gps_r_lat : α)
    (hlon : gps_t_lon = gps_r_lon) (hlat : gps_t_lat = gps_r_lat) :
    gpsConvertENU cos gps_t_lon gps_t_lat gps_r_lon gps_r_lat = (0, 0) := by
  subst hlon hlat
  simp [gpsConvertENU, DEG2RAD]

/-- Witness of C3 at longitude 113.95, latitude 22.54 on the rationals. -/
theorem gpsConvertENU_at_reference_witness :
    gpsConvertENU (fun x : ℚ => 1 - x * x / 2) 113.95 22.54 113.95 22.54 = (0, 0) :=
  gpsConvertENU_at_reference (fun x : ℚ => 1 - x * x / 2) 113.95 22.54 113.95 22.54 rfl rfl

/-- Claim C4. The frame-conversion matrices `R_FLU2FRD_` and `R_ENU2NED_` are
rotation matrices, each a 3x3 orthogonal matrix (`R * Rᵀ = 1`) with
determinant 1, and neither is changed by any operation after construction:
whatever matrices a node was constructed with, every operation and every
sequence of operations leaves it both, so the constructed node holds its
two rotation matrices after any sequence of operations. -/
theorem frame_matrices_are_constant_rotations :
    (IsRotation VehicleNode.construct.R_FLU2FRD_ ∧
      IsRotation VehicleNode.construct.R_ENU2NED_) ∧
    (∀ (A B : Matrix3x3) (p : VehicleNode A B) (op : Operation A B),
      (op p).R_FLU2FRD_ = p.R_FLU2FRD_ ∧ (op p).R_ENU2NED_ = p.R_ENU2NED_) ∧
    (∀ (A B : Matrix3x3) (p : VehicleNode A B) (ops : List (Operation A B)),
      (p.run ops).R_FLU2FRD_ = p.R_FLU2FRD_ ∧ (p.run ops).R_ENU2NED_ = p.R_ENU2NED_) ∧
    (∀ ops : List (Operation FLU2FRD ENU2NED),
      IsRotation (VehicleNode.construct.run ops).R_FLU2FRD_ ∧
      IsRotation (VehicleNode.construct.run ops).R_ENU2NED_) :=
  ⟨⟨FLU2FRD_isRotation, ENU2NED_isRotation⟩,
    fun _ _ _ _ => ⟨rfl, rfl⟩,
    fun _ _ _ _ => ⟨rfl, rfl⟩,
    fun _ => ⟨FLU2FRD_isRotation, ENU2NED_isRotation⟩⟩

/-- Claim C5. The clock-alignment state is valid once set: for every
`now_time` and every `tick`, when `curr_align_state_` is already the aligned
state, `alignRosTimeWithFlightController(now_time, tick)` leaves both
`curr_align_state_` and `base_time_` unchanged. -/
theorem align_keeps_aligned_state {R_FLU2FRD_ R_ENU2NED_ : Matrix3x3}
    (TIME_DIFF_CHECK : ℤ) (STABLE_ALIGNMENT_COUNT : ℕ)
    (p : VehicleNode R_FLU2FRD_ R_ENU2NED_) (now_time : ℤ) (tick : ℕ)
    (h : p.curr_align_state_ = AlignStatus.ALIGNED) :
    (alignRosTimeWithFlightController TIME_DIFF_CHECK STABLE_ALIGNMENT_COUNT
        p now_time tick).curr_align_state_ = p.curr_align_state_ ∧
    (alignRosTimeWithFlightController TIME_DIFF_CHECK STABLE_ALIGNMENT_COUNT
        p now_time tick).base_time_ = p.base_time_ := by
  unfold alignRosTimeWithFlightController
  simp [h]

/-- Witness of C5: the node that four agreeing calls have aligned (window of
8 ms, more than 2 agreeing calls asked for) keeps its flag and its base time
of 4 s when a fifth call arrives with a host time far off. -/
theorem align_keeps_aligned_state_witness :
    alignedExample.curr_align_state_ = AlignStatus.ALIGNED ∧
    alignedExample.base_time_ = 4000000000 ∧
    (alignRosTimeWithFlightController 8000000 2 alignedExample 9 9).curr_align_state_
      = alignedExample.curr_align_state_ ∧
    (alignRosTimeWithFlightController 8000000 2 alignedExample 9 9).base_time_
      = alignedExample.base_time_ :=
  ⟨by decide, by decide, align_keeps_aligned_state 8000000 2 alignedExample 9 9 (by decide)⟩

/-- Claim C6. `DEG2RAD` and `RAD2DEG` are mutually inverse in exact arithmetic:
for every number `x`, `RAD2DEG(DEG2RAD(x)) = x` and `DEG2RAD(RAD2DEG(x)) = x`,
although `DEG2RAD` multiplies by the quotient `C_PI / 180` while `RAD2DEG`
multiplies by 180 and then divides by `C_PI`. -/
theorem DEG2RAD_RAD2DEG_inverse {α : Type} [LinearOrderedField α] (x : α) :
    RAD2DEG (DEG2RAD x) = x ∧ DEG2RAD (RAD2DEG x) = x := by
  have h : (C_PI : α) ≠ 0 := C_PI_ne_zero
  constructor <;> unfold RAD2DEG DEG2RAD <;> field_simp

/-- Claim C7. The constant `C_PI` (3.141592653589793, read as an exact decimal)
approximates the mathematical constant pi from below with error under
`10^-15`: `C_PI < pi` and `pi - C_PI < 10^-15`, so `DEG2RAD(180)` differs
from pi radians by less than `10^-15`. -/
theorem C_PI_approximates_pi :
    (C_PI : ℝ) < Real.pi ∧ Real.pi - C_PI < 10 ^ (-15 : ℤ) ∧
      |DEG2RAD (180 : ℝ) - Real.pi| < 10 ^ (-15 : ℤ) := by
  have h1 := Real.pi_gt_d20
  have h2 := Real.pi_lt_d20
  rw [DEG2RAD_straight_angle, abs_lt]
  unfold C_PI
  norm_num at h1 h2 ⊢
  refine ⟨?_, ?_, ?_, ?_⟩ <;> linarith

/-- Claim C8. With `C_EARTH = 6378137` metres as the earth radius, one degree
of arc converts to between 111319.49 and 111319.50 metres:
`111319.49 < DEG2RAD(1) * C_EARTH < 111319.50` in exact arithmetic, and for
every `d` the arc length `DEG2RAD(d) * C_EARTH` equals `d` times that value. -/
theorem one_degree_of_arc {α : Type} [LinearOrderedField α] :
    (111319.49 : α) < DEG2RAD 1 * C_EARTH ∧ DEG2RAD 1 * C_EARTH < (111319.50 : α) ∧
      ∀ d : α, DEG2RAD d * C_EARTH = d * (DEG2RAD 1 * C_EARTH) := by
  refine ⟨?_, ?_, fun d => ?_⟩
  · unfold DEG2RAD C_PI C_EARTH
    norm_num
  · unfold DEG2RAD C_PI C_EARTH
    norm_num
  · unfold DEG2RAD
    ring

end dji_osdk_ros
